import Mathlib

/-!
# Verification of `semantic-link-labs` client functions

Shallow embedding of the Python source files
`sempy_labs/_connections.py`, `sempy_labs/_dataflows.py`,
`sempy_labs/_one_lake_integration.py` and `sempy_labs/_vertipaq_bulk.py`.

Pure request-building code becomes Lean functions on a JSON value type;
effectful code (HTTP calls, prints, delta-table appends) becomes functions
returning an event trace together with an `Except` outcome.  External
collaborators that live outside the provided sources
(`fabric.FabricRestClient`, the `pagination` helper, `_conv_b64`,
name-to-id resolvers, the Vertipaq analyzer itself) are modelled as inputs
to the embedded functions, or — where their behaviour decides a claim —
from the specification, with a doc comment saying so.
-/

/-- JSON values.  Objects are ordered association lists, matching Python
dicts (insertion order preserved), so that payload key order is part of
equality. -/
inductive Json where
  | null : Json
  | bool : Bool → Json
  | num : Int → Json
  | str : String → Json
  | arr : List Json → Json
  | obj : List (String × Json) → Json

/-- An item of a JSON collection response, as consumed by the Python code
via `dict.get`: an ordered field list. -/
abbrev JObj := List (String × Json)

/-- Python `d.get(k)` on a dict: `None` when the key is absent. -/
def jget (o : JObj) (k : String) : Option Json := o.lookup k

/-- Python `d.get(k, {})` followed by use of the result as a dict.
A present object yields its fields; an absent key yields the `{}` default.
(A present non-object value would raise `AttributeError` in Python; the
embedding covers well-formed API responses, where nested detail fields,
when present, are objects.) -/
def jgetObjD (o : JObj) (k : String) : JObj :=
  match o.lookup k with
  | some (Json.obj fields) => fields
  | _ => []

/-- Python `cd.get(k) if cd else None` where `cd` came from `jgetObjD`:
an empty dict is falsy, so every field maps to `None`. -/
def jgetIfTruthy (o : JObj) (k : String) : Option Json :=
  if o.isEmpty then none else o.lookup k

/-- A cell of a pandas dataframe: either an explicit absent value
(Python `None` / `NaN`) or a JSON value. -/
abbrev Cell := Option Json

/-- A pandas dataframe, modelled as a named, ordered column list plus rows.
Each row is the association list of the `new_data` dict it was built from;
a column not present in a row's keys reads as the absent value. -/
structure DataFrame where
  columns : List String
  rows : List (List (String × Cell))

/-- Python `pd.DataFrame(columns=[...])`: an empty frame with the given columns. -/
def DataFrame.empty (cols : List String) : DataFrame := ⟨cols, []⟩

/-- Python `pd.concat([df, pd.DataFrame(new_data, index=[0])], ignore_index=True)`:
the single row is appended, and any key of `new_data` that is not already a
column of `df` becomes a new column, appended after the existing ones. -/
def DataFrame.concatRow (df : DataFrame) (row : List (String × Cell)) : DataFrame :=
  { columns := df.columns ++ (row.map Prod.fst).filter (fun k => ¬ df.columns.contains k),
    rows := df.rows ++ [row] }

/-- Python truthiness of a JSON value, as used by `bool(x)`. -/
def jsonTruthy : Json → Bool
  | Json.null => false
  | Json.bool b => b
  | Json.num n => n != 0
  | Json.str s => s != ""
  | Json.arr l => !l.isEmpty
  | Json.obj l => !l.isEmpty

/-- Python `df[[col]].astype(bool)`: the named column is coerced cell-wise to a
boolean; an absent cell coerces to `False`.  (The spec notes the source
rule for absent values is undocumented; no claim depends on the exact
choice for absent cells.) -/
def DataFrame.astypeBoolCol (df : DataFrame) (col : String) : DataFrame :=
  { df with rows := df.rows.map (fun row =>
      row.map (fun kv =>
        if kv.1 = col then
          (kv.1, some (Json.bool (match kv.2 with
            | none => false
            | some v => jsonTruthy v)))
        else kv)) }

/-- Effects issued by the embedded functions, in program order. -/
inductive Event where
  | resolveConnectionId (connectionName : String)
  | resolveWorkspace (workspace : Option String)
  | resolveDatasetId (dataset : String)
  | resolveLakehouseId (lakehouse : Option String)
  | httpGet (path : String)
  | httpPost (path : String) (body : Json)
  | httpDelete (path : String)
  | tmslExport (dataset : String) (workspace : String)
  | consolePrint (msg : String)

/-- Errors raised by the embedded functions.  `valueError` carries the
offending value and the allowed set named by the message;
`fabricHTTP` carries the attached response status (FabricHTTPException). -/
inductive Err where
  | valueError (offending : String) (allowed : List String)
  | valueErrorMsg (msg : String)
  | fabricHTTP (status : Nat)
deriving DecidableEq

/-! ## `_connections.py` -/

/-- Source `principal_types` (line 10). -/
def principal_types : List String :=
  ["Group", "ServicePrincipal", "ServicePrincipalProfile", "User"]

/-- Source `connection_roles` (line 11). -/
def connection_roles : List String := ["Owner", "User", "UserWithReshare"]

/-- The column list declared by `list_connections` (lines 29–43),
reproduced faithfully, misspellings included ("Single Sign on Type",
"Connection Encyrption"). -/
def connectionColumns : List String :=
  ["Connection Id", "Connection Name", "Gateway Id", "Connectivity Type",
   "Connection Path", "Connection Type", "Privacy Level", "Credential Type",
   "Single Sign on Type", "Connection Encyrption", "Skip Test Connection"]

/-- The `new_data` dict built for one connection item (lines 49–75).
Note the keys "Single Sign On Type" and "Connection Encryption" differ in
spelling from the declared columns above. -/
def connectionNewData (i : JObj) : List (String × Cell) :=
  let connection_details := jgetObjD i "connectionDetails"
  let credential_details := jgetObjD i "credentialDetails"
  [("Connection Id", jget i "id"),
   ("Connection Name", jget i "displayName"),
   ("Gateway Id", jget i "gatewayId"),
   ("Connectivity Type", jget i "connectivityType"),
   ("Connection Path", jget connection_details "path"),
   ("Connection Type", jget connection_details "type"),
   ("Privacy Level", jget i "privacyLevel"),
   ("Credential Type", jgetIfTruthy credential_details "credentialType"),
   ("Single Sign On Type", jgetIfTruthy credential_details "singleSignOnType"),
   ("Connection Encryption", jgetIfTruthy credential_details "connectionEncryption"),
   ("Skip Test Connection", jgetIfTruthy credential_details "skipTestConnection")]

/-- A paginated collection server: the ordered pages, each carrying the
`value` array of that page's body. -/
abbrev Pages := List (List JObj)

/-- Source `list_connections` (lines 13–81).  The single `client.get` returns the
first page; the function reads `response.json().get("value", [])` and
never follows a continuation token, so only the first page's items are
consumed.  The `Skip Test Connection` column is coerced to bool at the
end (lines 78–79). -/
def list_connections (status : Nat) (pages : Pages) : Except Err DataFrame :=
  if status ≠ 200 then Except.error (Err.fabricHTTP status)
  else
    let df := (pages.headD []).foldl
      (fun df i => df.concatRow (connectionNewData i))
      (DataFrame.empty connectionColumns)
    Except.ok (df.astypeBoolCol "Skip Test Connection")

/-- Modelled from the spec: the shared `pagination` helper lives in
`sempy_labs/_helper_functions.py`, which is not among the provided
sources.  Per the spec (§4.1, §6) it follows every continuation link and
returns each page's body, in server order, terminating when a response
carries no continuation token.  With the server modelled as its page
list, that contract is: all pages, in order. -/
def pagination (pages : Pages) : Pages := pages

/-- The column list declared by `list_connection_role_assignments`
(lines 325–332). -/
def roleAssignmentColumns : List String :=
  ["Connection Role Assignment Id", "Principal Id", "Principal Type", "Role"]

/-- The `new_data` dict built for one role-assignment item (lines 343–348),
faithful to the source: the Principal Id is read from the misspelled key
`princiapl` (so it is always absent on well-formed responses), and the
Principal Type is written under the misspelled column name
"Princiapl Type". -/
def roleAssignmentNewData (v : JObj) : List (String × Cell) :=
  [("Connection Role Assignment Id", jget v "id"),
   ("Principal Id", jget (jgetObjD v "princiapl") "id"),
   ("Princiapl Type", jget (jgetObjD v "principal") "type"),
   ("Role", jget v "role")]

/-- Source `list_connection_role_assignments` (lines 319–352): resolves the
connection id, issues the GET, raises on non-200, then iterates over
`pagination(client, response)` — every page — and over each page's
`value` array, concatenating one row per item. -/
def list_connection_role_assignments (connection_name : String)
    (resolvedId : String) (status : Nat) (pages : Pages) :
    List Event × Except Err DataFrame :=
  let trace := [Event.resolveConnectionId connection_name,
                Event.httpGet ("/v1/connections/" ++ resolvedId ++ "/roleAssignments")]
  if status ≠ 200 then (trace, Except.error (Err.fabricHTTP status))
  else
    let responses := pagination pages
    let df := (responses.foldl
      (fun df page => page.foldl
        (fun df v => df.concatRow (roleAssignmentNewData v)) df)
      (DataFrame.empty roleAssignmentColumns))
    (trace, Except.ok df)

/-- The `request_body` built by `create_connection_cloud` (lines 123–144),
key order as in the source. -/
def create_connection_cloud_body (connection_name server_name database_name
    credential_type user_name password privacy_level connectivity_type
    single_sign_on_type encryption : String) : Json :=
  Json.obj
    [("connectivityType", Json.str connectivity_type),
     ("name", Json.str connection_name),
     ("connectionDetails", Json.obj
       [("type", Json.str "SQL"),
        ("parameters", Json.arr
          [Json.obj [("name", Json.str "server"), ("value", Json.str server_name)],
           Json.obj [("name", Json.str "database"), ("value", Json.str database_name)]])]),
     ("privacyLevel", Json.str privacy_level),
     ("credentialDetails", Json.obj
       [("singleSignOnType", Json.str single_sign_on_type),
        ("connectionEncryption", Json.str encryption),
        ("skipTestConnection", Json.bool false),
        ("credentials", Json.obj
          [("credentialType", Json.str credential_type),
           ("username", Json.str user_name),
           ("password", Json.str password)])])]

/-- The `request_body` built by `create_connection_on_prem` (lines 175–196):
adds a top-level `gatewayId`, and its credentials carry a `values` array
(each entry with `gatewayId` and the opaque credentials string) instead of
username/password. -/
def create_connection_on_prem_body (connection_name gateway_id server_name
    database_name credential_type credentials privacy_level connectivity_type
    single_sign_on_type encryption : String) : Json :=
  Json.obj
    [("connectivityType", Json.str connectivity_type),
     ("gatewayId", Json.str gateway_id),
     ("name", Json.str connection_name),
     ("connectionDetails", Json.obj
       [("type", Json.str "SQL"),
        ("parameters", Json.arr
          [Json.obj [("name", Json.str "server"), ("value", Json.str server_name)],
           Json.obj [("name", Json.str "database"), ("value", Json.str database_name)]])]),
     ("privacyLevel", Json.str privacy_level),
     ("credentialDetails", Json.obj
       [("singleSignOnType", Json.str single_sign_on_type),
        ("connectionEncryption", Json.str encryption),
        ("skipTestConnection", Json.bool false),
        ("credentials", Json.obj
          [("credentialType", Json.str credential_type),
           ("values", Json.arr
             [Json.obj [("gatewayId", Json.str gateway_id),
                        ("credentials", Json.str credentials)]])])])]

/-- The `request_body` built by `create_connection_vnet` (lines 228–250):
top-level `gatewayId` plus username/password credentials. -/
def create_connection_vnet_body (connection_name gateway_id server_name
    database_name user_name password credential_type privacy_level
    connectivity_type single_sign_on_type encryption : String) : Json :=
  Json.obj
    [("connectivityType", Json.str connectivity_type),
     ("gatewayId", Json.str gateway_id),
     ("name", Json.str connection_name),
     ("connectionDetails", Json.obj
       [("type", Json.str "SQL"),
        ("parameters", Json.arr
          [Json.obj [("name", Json.str "server"), ("value", Json.str server_name)],
           Json.obj [("name", Json.str "database"), ("value", Json.str database_name)]])]),
     ("privacyLevel", Json.str privacy_level),
     ("credentialDetails", Json.obj
       [("singleSignOnType", Json.str single_sign_on_type),
        ("connectionEncryption", Json.str encryption),
        ("skipTestConnection", Json.bool false),
        ("credentials", Json.obj
          [("credentialType", Json.str credential_type),
           ("username", Json.str user_name),
           ("password", Json.str password)])])]

/-- Source `create_connection_cloud` (lines 84–149): no local validation of any
parameter; the POST is always issued, and a status other than 201 raises
`FabricHTTPException(response)`.  The response status is an input (the
server's behaviour). -/
def create_connection_cloud (connection_name server_name database_name
    credential_type user_name password privacy_level connectivity_type
    single_sign_on_type encryption : String) (status : Nat) :
    List Event × Except Err Unit :=
  let body := create_connection_cloud_body connection_name server_name
    database_name credential_type user_name password privacy_level
    connectivity_type single_sign_on_type encryption
  let trace := [Event.httpPost "/v1/connections" body]
  if status ≠ 201 then (trace, Except.error (Err.fabricHTTP status))
  else (trace, Except.ok ())

/-- Source `create_connection_on_prem` (lines 152–201): same shape, its own body. -/
def create_connection_on_prem (connection_name gateway_id server_name
    database_name credential_type credentials privacy_level connectivity_type
    single_sign_on_type encryption : String) (status : Nat) :
    List Event × Except Err Unit :=
  let body := create_connection_on_prem_body connection_name gateway_id
    server_name database_name credential_type credentials privacy_level
    connectivity_type single_sign_on_type encryption
  let trace := [Event.httpPost "/v1/connections" body]
  if status ≠ 201 then (trace, Except.error (Err.fabricHTTP status))
  else (trace, Except.ok ())

/-- Source `create_connection_vnet` (lines 204–255): same shape, its own body. -/
def create_connection_vnet (connection_name gateway_id server_name
    database_name user_name password credential_type privacy_level
    connectivity_type single_sign_on_type encryption : String) (status : Nat) :
    List Event × Except Err Unit :=
  let body := create_connection_vnet_body connection_name gateway_id
    server_name database_name user_name password credential_type
    privacy_level connectivity_type single_sign_on_type encryption
  let trace := [Event.httpPost "/v1/connections" body]
  if status ≠ 201 then (trace, Except.error (Err.fabricHTTP status))
  else (trace, Except.ok ())

/-- The payload built by `add_connection_role_assignemnt` (lines 271–277). -/
def add_connection_role_assignemnt_body (email_address principal_type
    role : String) : Json :=
  Json.obj
    [("principal", Json.obj
       [("id", Json.str email_address),
        ("type", Json.str principal_type)]),
     ("role", Json.str role)]

/-- Source `add_connection_role_assignemnt` (lines 258–284; the misspelled source
name is kept).  Program order is faithful to the source: the connection
name is resolved to an id first (line 264), and only then are
`principal_type` and `role` checked against the fixed allowed sets
(lines 266–269), each invalid value raising a `ValueError` that names the
offending value and the allowed options.  On valid values the POST is
issued and a status other than 201 raises `FabricHTTPException`. -/
def add_connection_role_assignemnt (connection_name email_address
    principal_type role : String) (resolvedId : String) (status : Nat) :
    List Event × Except Err Unit :=
  let trace := [Event.resolveConnectionId connection_name]
  if principal_type ∉ principal_types then
    (trace, Except.error (Err.valueError principal_type principal_types))
  else if role ∉ connection_roles then
    (trace, Except.error (Err.valueError role connection_roles))
  else
    let body := add_connection_role_assignemnt_body email_address
      principal_type role
    let trace := trace ++
      [Event.httpPost ("/v1/connections/" ++ resolvedId ++ "/roleAssignments") body]
    if status ≠ 201 then (trace, Except.error (Err.fabricHTTP status))
    else
      (trace ++ [Event.consolePrint ("The " ++ email_address ++
        " user was added as a " ++ role ++ " role to the " ++
        connection_name ++ " connection.")], Except.ok ())

/-- Source `delete_connection` (lines 287–301): resolve the connection id, DELETE,
raise `FabricHTTPException` on any status other than 200, else print. -/
def delete_connection (connection_name : String) (resolvedId : String)
    (status : Nat) : List Event × Except Err Unit :=
  let trace := [Event.resolveConnectionId connection_name,
                Event.httpDelete ("/v1/connections/" ++ resolvedId)]
  if status ≠ 200 then (trace, Except.error (Err.fabricHTTP status))
  else
    (trace ++ [Event.consolePrint ("The " ++ connection_name ++
      " connection has been deleted.")], Except.ok ())

/-! ## `_dataflows.py`

The envelope builder of `create_dataflow` (lines 40–75) wraps the caller's
mashup document in a fixed-shape object and passes it to `_conv_b64`,
which lives in `sempy_labs/_helper_functions.py` — not among the provided
sources.  Per the spec (§4.3) `_conv_b64` serializes the envelope to a
byte string and encodes it as base64 text; that serialization is modelled
below (JSON text via string escaping and UTF-8, then base64). -/

/-- The Unicode code points of a string. -/
def strCodes (s : String) : List Nat := s.data.map Char.toNat

/-- The base64 alphabet: the character code of sextet `s` (0–63). -/
def sextetChar (s : Nat) : Nat :=
  if s < 26 then 65 + s
  else if s < 52 then 71 + s
  else if s < 62 then s - 4
  else if s = 62 then 43
  else 47

/-- Inverse of `sextetChar`: the sextet of a base64 alphabet character. -/
def charSextet (c : Nat) : Option Nat :=
  if 65 ≤ c ∧ c ≤ 90 then some (c - 65)
  else if 97 ≤ c ∧ c ≤ 122 then some (c - 71)
  else if 48 ≤ c ∧ c ≤ 57 then some (c + 4)
  else if c = 43 then some 62
  else if c = 47 then some 63
  else none

/-- Base64 encoding of a byte list, as character codes; `61` is `'='`
padding. -/
def base64Encode : List Nat → List Nat
  | [] => []
  | [b0] => [sextetChar (b0 / 4), sextetChar (b0 % 4 * 16), 61, 61]
  | [b0, b1] => [sextetChar (b0 / 4), sextetChar (b0 % 4 * 16 + b1 / 16),
                 sextetChar (b1 % 16 * 4), 61]
  | b0 :: b1 :: b2 :: rest =>
      sextetChar (b0 / 4) :: sextetChar (b0 % 4 * 16 + b1 / 16) ::
      sextetChar (b1 % 16 * 4 + b2 / 64) :: sextetChar (b2 % 64) ::
      base64Encode rest

/-- Base64 decoding, the partial inverse of `base64Encode`. -/
def base64Decode : List Nat → Option (List Nat)
  | [] => some []
  | c0 :: c1 :: c2 :: c3 :: rest =>
    match charSextet c0, charSextet c1 with
    | some s0, some s1 =>
      if c2 = 61 then
        if c3 = 61 ∧ rest = [] then some [s0 * 4 + s1 / 16] else none
      else
        match charSextet c2 with
        | some s2 =>
          if c3 = 61 then
            if rest = [] then some [s0 * 4 + s1 / 16, s1 % 16 * 16 + s2 / 4]
            else none
          else
            match charSextet c3, base64Decode rest with
            | some s3, some bs =>
                some ((s0 * 4 + s1 / 16) :: (s1 % 16 * 16 + s2 / 4) ::
                      (s2 % 4 * 64 + s3) :: bs)
            | _, _ => none
        | none => none
    | _, _ => none
  | _ => none

/-- UTF-8 encoding of one code point (1–4 bytes). -/
def utf8EncodeChar (c : Nat) : List Nat :=
  if c < 128 then [c]
  else if c < 2048 then [192 + c / 64, 128 + c % 64]
  else if c < 65536 then [224 + c / 4096, 128 + c / 64 % 64, 128 + c % 64]
  else [240 + c / 262144, 128 + c / 4096 % 64, 128 + c / 64 % 64, 128 + c % 64]

/-- UTF-8 encoding of a code-point list. -/
def utf8Encode (cs : List Nat) : List Nat := (cs.map utf8EncodeChar).flatten

/-- UTF-8 decoding, the partial inverse of `utf8Encode`, as a byte-wise
state machine: `pend` counts the continuation bytes still expected for the
current code point and `acc` holds its partial value.  A fresh byte
dispatches on its range (1-, 2-, 3- or 4-byte lead, or invalid); a
continuation byte must lie in [128, 192). -/
def utf8DecodeAux : Nat → Nat → List Nat → Option (List Nat)
  | 0, _, [] => some []
  | _+1, _, [] => none
  | 0, _, b :: rest =>
      if b < 128 then (utf8DecodeAux 0 0 rest).map (b :: ·)
      else if b < 192 then none
      else if b < 224 then utf8DecodeAux 1 (b - 192) rest
      else if b < 240 then utf8DecodeAux 2 (b - 224) rest
      else if b < 248 then utf8DecodeAux 3 (b - 240) rest
      else none
  | pend+1, acc, b :: rest =>
      if 128 ≤ b ∧ b < 192 then
        if pend = 0 then
          (utf8DecodeAux 0 0 rest).map ((acc * 64 + (b - 128)) :: ·)
        else utf8DecodeAux pend (acc * 64 + (b - 128)) rest
      else none

/-- UTF-8 decoding of a byte list. -/
def utf8Decode (l : List Nat) : Option (List Nat) := utf8DecodeAux 0 0 l

/-- JSON string escaping of the embedded document: a double quote (34) or
backslash (92) is preceded by a backslash; every other code point passes
through. -/
def escapeCodes : List Nat → List Nat
  | [] => []
  | c :: cs =>
      if c = 34 ∨ c = 92 then 92 :: c :: escapeCodes cs
      else c :: escapeCodes cs

/-- Inverse of `escapeCodes`: rejects a bare quote or a dangling escape. -/
def unescapeCodes : List Nat → Option (List Nat)
  | [] => some []
  | c :: cs =>
    if c = 92 then
      match cs with
      | c2 :: cs2 =>
          if c2 = 34 ∨ c2 = 92 then (unescapeCodes cs2).map (c2 :: ·)
          else none
      | [] => none
    else if c = 34 then none
    else (unescapeCodes cs).map (c :: ·)

/-- The serialized envelope text preceding the mashup document: the JSON
text of `dataflow_def_payload` (lines 40–64) up to the opening quote of
the `mashupDocument` value, keys in source insertion order. -/
def envelopeHead : String :=
  "\x7b\"editingSessionMashup\": \x7b\"mashupName\": \"\", \"mashupDocument\": \""

/-- The serialized envelope text following the mashup document: the
remaining constant fields of `dataflow_def_payload`, source order and
values (including the source's `DataflowRefreshOutpuFileFormat` spelling). -/
def envelopeTail : String :=
  "\", \"queryGroups\": [], \"documentLocale\": \"en-US\", " ++
  "\"gatewayObjectId\": null, \"queriesMetadata\": null, " ++
  "\"connectionOverrides\": [], \"trustedConnections\": null, " ++
  "\"useHostConnectionProvider\": false, \"fastCombine\": false, " ++
  "\"allowNativeQueries\": true, \"allowedModules\": null, " ++
  "\"skipAutomaticTypeAndHeaderDetection\": false, " ++
  "\"disableAutoAnonymousConnectionUpsert\": null, " ++
  "\"hostProperties\": \x7b\"DataflowRefreshOutpuFileFormat\": \"Parquet\", " ++
  "\"EnableDataTimeFieldsForStaging\": true, " ++
  "\"EnablePublishWithoutLoadedQueries\": true\x7d, " ++
  "\"defaultOutputDestinationConfiguration\": null, " ++
  "\"stagingDefinition\": null\x7d\x7d"

/-- Modelled from the spec: serialization of `dataflow_def_payload` to
JSON text, as `json.dumps` inside `_conv_b64` would produce it.  Every
field except `mashupDocument` is a constant of the envelope (spec §2,
"DataflowDefinition"), so the text is the constant head, the escaped
document, and the constant tail. -/
def serializeEnvelope (mashup_document : String) : List Nat :=
  strCodes envelopeHead ++ escapeCodes (strCodes mashup_document) ++
  strCodes envelopeTail

/-- Modelled from the spec: `_conv_b64` (from `_helper_functions.py`, not
among the provided sources) serializes the envelope to a byte string
(UTF-8) and encodes it as base64 text (spec §4.3). -/
def conv_b64 (mashup_document : String) : List Nat :=
  base64Encode (utf8Encode (serializeEnvelope mashup_document))

/-- Modelled from the spec: decoding of the outer envelope — base64
decode, UTF-8 decode, check the constant envelope fields, and recover the
mashup document (spec §4.3's round trip). -/
def decodeEnvelope (b64 : List Nat) : Option (List Nat) :=
  match base64Decode b64 with
  | none => none
  | some bytes =>
    match utf8Decode bytes with
    | none => none
    | some cps =>
      let h := strCodes envelopeHead
      let t := strCodes envelopeTail
      if cps.take h.length = h ∧ cps.drop (cps.length - t.length) = t ∧
         h.length + t.length ≤ cps.length then
        unescapeCodes ((cps.drop h.length).take (cps.length - h.length - t.length))
      else none

/-- ASCII character codes back to a string (used for the base64 text). -/
def codesStr (cs : List Nat) : String := String.mk (cs.map Char.ofNat)

/-- The item-creation payload built by `create_dataflow` (lines 32–75):
`displayName` and `type`, the optional `description`, and a `definition`
with a single part at the fixed path `dataflow-content.json` whose payload
is the base64-encoded envelope. -/
def create_dataflow_payload (dataflow_name mashup_document : String)
    (description : Option String) : Json :=
  Json.obj
    ([("displayName", Json.str dataflow_name), ("type", Json.str "Dataflow")] ++
     (match description with
      | some d => [("description", Json.str d)]
      | none => []) ++
     [("definition", Json.obj
        [("parts", Json.arr
           [Json.obj
             [("path", Json.str "dataflow-content.json"),
              ("payload", Json.str (codesStr (conv_b64 mashup_document)))]])])])

/-- Source `create_dataflow` (lines 11–85): resolve the workspace, POST the item
payload, raise `FabricHTTPException` on any status other than 200, else
print a confirmation. -/
def create_dataflow (dataflow_name mashup_document : String)
    (description : Option String) (workspace : Option String)
    (workspace_id : String) (status : Nat) : List Event × Except Err Unit :=
  let trace := [Event.resolveWorkspace workspace,
                Event.httpPost ("/v1/workspaces/" ++ workspace_id ++ "/items")
                  (create_dataflow_payload dataflow_name mashup_document description)]
  if status ≠ 200 then (trace, Except.error (Err.fabricHTTP status))
  else
    (trace ++ [Event.consolePrint ("The " ++ dataflow_name ++
      " has been created within the " ++ workspace.getD "" ++
      " workspace.")], Except.ok ())

/-! ## `_one_lake_integration.py` -/

/-- A table of the semantic model as seen through the TOM connection, with
the attributes `export_model_to_onelake` inspects (lines 105–112). -/
structure TomTable where
  name : String
  calcGroupNone : Bool
  systemManaged : Bool
  allPartitionsImport : Bool
  columnsCount : Nat

/-- The shortcut-eligibility test of lines 107–112:
`t.CalculationGroup is None and t.SystemManaged is False and
all(p.Mode == Import) and t.Columns.Count > 0`. -/
def TomTable.eligible (t : TomTable) : Bool :=
  t.calcGroupNone && !t.systemManaged && t.allPartitionsImport &&
  t.columnsCount != 0

/-- External collaborators of `export_model_to_onelake`, as resolved by
helpers that are not among the provided sources: resolver results, the
attached-lakehouse state, the source item id, and the per-shortcut
response status returned by the server. -/
structure OneLakeEnv where
  workspaceName : String
  workspaceId : String
  destinationWorkspaceId : String
  lakehouseAttached : Bool
  attachedLakehouseId : String
  attachedWorkspaceId : String
  resolvedLakehouseId : String
  sourceLakehouseId : String
  tables : List TomTable
  shortcutStatus : String → Nat

/-- The shortcut `request_body` of lines 115–125. -/
def shortcut_request_body (workspace_id sourceLakehouseId tableName
    shortcutName : String) : Json :=
  Json.obj
    [("path", Json.str "Tables"),
     ("name", Json.str shortcutName),
     ("target", Json.obj
       [("oneLake", Json.obj
          [("workspaceId", Json.str workspace_id),
           ("itemId", Json.str sourceLakehouseId),
           ("path", Json.str ("Tables/" ++ tableName))])])]

/-- The shortcut loop of lines 105–136: for each eligible table, POST the
shortcut; a status other than 201 raises `FabricHTTPException` on the
spot, leaving the shortcuts already created (and the export) in place. -/
def shortcutLoopGo (env : OneLakeEnv) (destWsId destLkId : String) :
    List TomTable → List Event × Except Err Unit
  | [] => ([], Except.ok ())
  | t :: rest =>
    if t.eligible then
      let shortcutName := t.name.replace " " ""
      let ev := Event.httpPost
        ("/v1/workspaces/" ++ destWsId ++ "/items/" ++ destLkId ++ "/shortcuts")
        (shortcut_request_body env.workspaceId env.sourceLakehouseId t.name
          shortcutName)
      let st := env.shortcutStatus t.name
      if st ≠ 201 then ([ev], Except.error (Err.fabricHTTP st))
      else
        let next := shortcutLoopGo env destWsId destLkId rest
        (ev :: Event.consolePrint ("The shortcut " ++ shortcutName ++
          " was created.") :: next.1, next.2)
    else shortcutLoopGo env destWsId destLkId rest

/-- Source `export_model_to_onelake` (lines 17–136), in source order: resolve the
workspaces and the dataset id, run the TMSL delta export (line 77, a
side effect on the service), and only then — when `create_shortcuts` is
true and no destination lakehouse is given — check whether a lakehouse is
attached, raising `ValueError` when it is not (lines 84–88).  The export
is never rolled back. -/
def export_model_to_onelake (dataset : String)
    (workspace destination_lakehouse destination_workspace : Option String)
    (create_shortcuts : Bool) (env : OneLakeEnv) :
    List Event × Except Err Unit :=
  let trace := [Event.resolveWorkspace workspace,
                Event.resolveWorkspace destination_workspace,
                Event.resolveDatasetId dataset,
                Event.tmslExport dataset env.workspaceName,
                Event.consolePrint ("The " ++ dataset ++
                  " semantic model tables have been exported as delta " ++
                  "tables to the " ++ env.workspaceName ++ " workspace.")]
  if create_shortcuts then
    match destination_lakehouse with
    | none =>
      if !env.lakehouseAttached then
        (trace, Except.error (Err.valueErrorMsg
          ("In order to create shortcuts, a lakehouse must be attached to " ++
           "the notebook or a lakehouse must be specified in the parameters " ++
           "of this function.")))
      else
        let next := shortcutLoopGo env env.attachedWorkspaceId
          env.attachedLakehouseId env.tables
        (trace ++ next.1, next.2)
    | some _ =>
      let trace := trace ++ [Event.resolveLakehouseId destination_lakehouse]
      let next := shortcutLoopGo env env.destinationWorkspaceId
        env.resolvedLakehouseId env.tables
      (trace ++ next.1, next.2)
  else (trace, Except.ok ())

/-! ## `_vertipaq_bulk.py` -/

/-- A row of a dataset in a workspace (`fabric.list_datasets`). -/
structure VDataset where
  name : String
  id : String
  configuredBy : String

/-- A row of the workspace item list (`fabric.list_items`). -/
structure VItem where
  displayName : String
  itemType : String

/-- A workspace as `vertipaq_analyzer_bulk` sees it. -/
structure VWorkspace where
  name : String
  id : String
  capacityId : String
  capacityName : String
  datasets : List VDataset
  items : List VItem

/-- A row of one of the six analyzer result dataframes. -/
abbrev VRow := List (String × Json)

/-- One analyzer result dataframe. -/
abbrev VFrame := List VRow

/-- The six dataframes `m, t, c, h, p, rel` returned by
`vertipaq_analyzer` (line 105). -/
abbrev VResult := VFrame × VFrame × VFrame × VFrame × VFrame × VFrame

/-- Observable effects of `vertipaq_analyzer_bulk`: the per-dataset
progress and failure prints (the failure print names the dataset and the
workspace), the per-workspace `save_as_delta_table` append, and the
completion print. -/
inductive VEvent where
  | collectStart (dataset workspace : String)
  | logFailure (dataset workspace : String)
  | save (rows : List VRow)
  | scanComplete

/-- External collaborators of `vertipaq_analyzer_bulk`: the attached
lakehouse, its table list, the maximum `RunId` of the persisted results
table (read when it exists), the wall clock, the accessible workspaces,
and the analyzer itself (per workspace and dataset: six dataframes, or an
exception). -/
structure VEnv where
  lakehouseAttached : Bool
  lakehouseTableNames : List String
  maxRunId : Nat
  now : String
  workspaces : List VWorkspace
  analyzer : String → String → Except String VResult

/-- Source `lakeTName` (line 58). -/
def vertipaq_table_name : String := "vertipaq_analyzer_model"

/-- Modelled from the spec: `icons.model_bpa_name`, the fixed
internally-named housekeeping model always excluded from bulk analysis
(`_icons.py` is not among the provided sources). -/
def model_bpa_name : String := "ModelBPA"

/-- The run-id computation of lines 59–66: filter the lakehouse tables to
`vertipaq_analyzer_model`; with no match the run id is 1, otherwise it is
the persisted maximum plus one.  Computed once, before the workspace
loop. -/
def computeRunId (env : VEnv) : Nat :=
  if (env.lakehouseTableNames.filter (fun n => n == vertipaq_table_name)).isEmpty
  then 1
  else env.maxRunId + 1

/-- The groupby-filter predicate of lines 87–90 for the group of items
sharing one display name: `{"Warehouse", "SemanticModel"}` is a subset of
the group's types, or `{"Lakehouse", "SemanticModel"}` is. -/
def groupPasses (items : List VItem) (n : String) : Bool :=
  let ts := (items.filter (fun it => it.displayName == n)).map VItem.itemType
  (ts.contains "Warehouse" && ts.contains "SemanticModel") ||
  (ts.contains "Lakehouse" && ts.contains "SemanticModel")

/-- Source `default_semantic_models` (lines 87–91): the display names of items
whose group passes the filter. -/
def default_semantic_models (items : List VItem) : List String :=
  (items.filter (fun it => groupPasses items it.displayName)).map
    VItem.displayName

/-- Membership in `skip_models = default_semantic_models + [model_bpa_name]`
(line 93), i.e. exclusion from bulk analysis (line 94). -/
def isSkippedDataset (items : List VItem) (n : String) : Bool :=
  (default_semantic_models items).contains n || n == model_bpa_name

/-- One field assignment `z[k] = v` on a dataframe row: replace the value
when the column exists, else append it. -/
def setField : VRow → String → Json → VRow
  | [], k, v => [(k, v)]
  | kv :: rest, k, v =>
      if kv.1 = k then (k, v) :: rest else kv :: setField rest k v

/-- The nine column assignments of lines 113–121, in source order, ending
with `z["RunId"] = runId`. -/
def tagRow (capacity_id capacity_name wksp wksp_id dataset_name dataset_id
    config_by now : String) (runId : Nat) (row : VRow) : VRow :=
  setField (setField (setField (setField (setField (setField (setField
    (setField (setField row
      "Capacity Id" (Json.str capacity_id))
      "Capacity Name" (Json.str capacity_name))
      "Workspace Name" (Json.str wksp))
      "Workspace Id" (Json.str wksp_id))
      "Dataset Name" (Json.str dataset_name))
      "Dataset Id" (Json.str dataset_id))
      "Configured By" (Json.str config_by))
      "Timestamp" (Json.str now))
      "RunId" (Json.num runId)

/-- The per-dataset try block (lines 104–134).  When the analyzer raises,
the exception is caught and the failure is logged with the dataset and
workspace names.  When the analyzer succeeds, the loop over
`[m, t, c, h, p, rel]` tags the first frame in place (lines 113–121), but
line 122 rebinds `z` to `z[cols]` — a projection to seven columns that do
not include `RunId` — so line 124 (`z["RunId"].astype("int")`) raises
`KeyError` on that first iteration; the exception is caught by the same
handler and the failure is logged.  Either way the dataset's rows are
never concatenated onto `df` (line 126 additionally references the
undefined name `bpa_df`). -/
def processDataset (runId : Nat) (now : String) (w : VWorkspace)
    (d : VDataset) (res : Except String VResult) : List VFrame × List VEvent :=
  match res with
  | Except.error _ => ([], [VEvent.collectStart d.name w.name,
                            VEvent.logFailure d.name w.name])
  | Except.ok (m, _, _, _, _, _) =>
      ([m.map (tagRow w.capacityId w.capacityName w.name w.id d.name d.id
          d.configuredBy now runId)],
       [VEvent.collectStart d.name w.name, VEvent.logFailure d.name w.name])

/-- The per-workspace body (lines 77–150).  With no datasets, or none left
after the default-model filter, the workspace is skipped.  Otherwise every
dataset is processed (each one failing as described above, the loop
continuing), and then line 136 evaluates `df["Severity"]` — but `df` still
has exactly the seven declared columns, `Severity` not among them, so an
uncaught `KeyError` aborts the whole invocation before the
`save_as_delta_table` append (which also names the undefined
`output_table`) is reached.  The returned `Option String` is that uncaught
error. -/
def processWorkspace (env : VEnv) (runId : Nat) (w : VWorkspace) :
    List VFrame × List VEvent × Option String :=
  if w.datasets.isEmpty then ([], [], none)
  else
    let ds := w.datasets.filter (fun d => !(isSkippedDataset w.items d.name))
    if ds.isEmpty then ([], [], none)
    else
      let results := ds.map (fun d =>
        processDataset runId env.now w d (env.analyzer w.name d.name))
      ((results.map Prod.fst).flatten,
       (results.map Prod.snd).flatten,
       some "KeyError: Severity")

/-- The workspace loop: stop at the first uncaught error. -/
def bulkGo (env : VEnv) (runId : Nat) :
    List VWorkspace → List VFrame × List VEvent × Except String Unit
  | [] => ([], [VEvent.scanComplete], Except.ok ())
  | w :: rest =>
    let r := processWorkspace env runId w
    match r.2.2 with
    | some e => (r.1, r.2.1, Except.error e)
    | none =>
      let next := bulkGo env runId rest
      (r.1 ++ next.1, r.2.1 ++ next.2.1, next.2.2)

/-- Source `vertipaq_analyzer_bulk` (lines 19–152): raise when no lakehouse is
attached (lines 37–40), compute the run id once (lines 59–66), filter the
workspace list by the caller's selection (lines 68–75: one name, a list,
or all), then loop.  The first component collects every frame that was
tagged in place during the run; the second is the event trace; the third
the outcome. -/
def vertipaq_analyzer_bulk (env : VEnv)
    (workspaceFilter : Option (List String)) :
    List VFrame × List VEvent × Except String Unit :=
  if !env.lakehouseAttached then
    ([], [], Except.error "ValueError: no lakehouse attached")
  else
    let runId := computeRunId env
    let wss := match workspaceFilter with
      | none => env.workspaces
      | some names => env.workspaces.filter (fun w => names.contains w.name)
    bulkGo env runId wss

/-! ## Helper lemmas -/

/-- Field lookup on a JSON object. -/
def Json.get : Json → String → Option Json
  | Json.obj fields, k => fields.lookup k
  | _, _ => none

theorem foldl_concatRow_rows {α : Type} (proj : α → List (String × Cell)) :
    ∀ (items : List α) (df : DataFrame),
      (items.foldl (fun df i => df.concatRow (proj i)) df).rows =
        df.rows ++ items.map proj := by
  intro items
  induction items with
  | nil => intro df; simp
  | cons i rest ih =>
    intro df
    simp only [List.foldl_cons, List.map_cons]
    rw [ih]
    simp [DataFrame.concatRow]

theorem setField_lookup_self (k : String) (v : Json) :
    ∀ (r : VRow), (setField r k v).lookup k = some v := by
  intro r
  induction r with
  | nil => simp [setField]
  | cons kv rest ih =>
    by_cases h : kv.1 = k
    · simp [setField, h]
    · simp only [setField, if_neg h, List.lookup]
      have : (k == kv.1) = false := beq_eq_false_iff_ne.mpr (fun e => h e.symm)
      rw [this]
      exact ih

theorem foldl_concatRow_stable {α : Type} (proj : α → List (String × Cell))
    (K : List String) (hK : ∀ i, (proj i).map Prod.fst = K) :
    ∀ (items : List α) (df : DataFrame),
      K.filter (fun k => ¬ df.columns.contains k) = [] →
      (items.foldl (fun df i => df.concatRow (proj i)) df) =
        ⟨df.columns, df.rows ++ items.map proj⟩ := by
  intro items
  induction items with
  | nil => intro df _; cases df; simp
  | cons i rest ih =>
    intro df h
    simp only [List.foldl_cons, List.map_cons]
    have hc : df.concatRow (proj i) = ⟨df.columns, df.rows ++ [proj i]⟩ := by
      simp only [DataFrame.concatRow, hK i, h, List.append_nil]
    rw [hc, ih ⟨df.columns, df.rows ++ [proj i]⟩ h]
    simp

theorem role_fold_eq : ∀ (l : List JObj),
    l.foldl (fun df v => df.concatRow (roleAssignmentNewData v))
      (DataFrame.empty roleAssignmentColumns) =
    ⟨if l.isEmpty then roleAssignmentColumns
      else roleAssignmentColumns ++ ["Princiapl Type"],
     l.map roleAssignmentNewData⟩ := by
  intro l
  match l with
  | [] => rfl
  | v :: rest =>
    simp only [List.foldl_cons, List.isEmpty_cons, List.map_cons]
    have h1 : (DataFrame.empty roleAssignmentColumns).concatRow
        (roleAssignmentNewData v) =
        ⟨roleAssignmentColumns ++ ["Princiapl Type"],
         [roleAssignmentNewData v]⟩ := rfl
    rw [h1, foldl_concatRow_stable roleAssignmentNewData
      ["Connection Role Assignment Id", "Principal Id", "Princiapl Type", "Role"]
      (fun _ => rfl) rest
      ⟨roleAssignmentColumns ++ ["Princiapl Type"], [roleAssignmentNewData v]⟩
      rfl]
    simp

theorem conn_fold_eq : ∀ (l : List JObj),
    l.foldl (fun df i => df.concatRow (connectionNewData i))
      (DataFrame.empty connectionColumns) =
    ⟨if l.isEmpty then connectionColumns
      else connectionColumns ++ ["Single Sign On Type", "Connection Encryption"],
     l.map connectionNewData⟩ := by
  intro l
  match l with
  | [] => rfl
  | v :: rest =>
    simp only [List.foldl_cons, List.isEmpty_cons, List.map_cons]
    have h1 : (DataFrame.empty connectionColumns).concatRow
        (connectionNewData v) =
        ⟨connectionColumns ++ ["Single Sign On Type", "Connection Encryption"],
         [connectionNewData v]⟩ := rfl
    rw [h1, foldl_concatRow_stable connectionNewData
      ["Connection Id", "Connection Name", "Gateway Id", "Connectivity Type",
       "Connection Path", "Connection Type", "Privacy Level", "Credential Type",
       "Single Sign On Type", "Connection Encryption", "Skip Test Connection"]
      (fun _ => rfl) rest
      ⟨connectionColumns ++ ["Single Sign On Type", "Connection Encryption"],
       [connectionNewData v]⟩
      rfl]
    simp

/-! ## Claim theorems -/

/-- C3: every create/delete/mutate operation compares the response status
against exactly one expected success code — 201 for the three
create-connection functions, for `add_connection_role_assignemnt` and for
the shortcut creation; 200 for `delete_connection` and for
`create_dataflow` — and any other status raises `FabricHTTPException`
with the response status attached.  The `Except` result admits no
partial-success outcome, and the operation issues its request exactly
once, with no retry: the cloud-create and delete traces below are a fixed
single-request list, whatever the status. -/
theorem mutate_ops_single_expected_status :
    ∀ (a b c d e f g h i j nm em pt ro rid wsid dfn mdoc tnm w l : String)
      (descr ws : Option String) (status k : Nat) (env : OneLakeEnv),
      (create_connection_cloud a b c d e f g h i j status).2 =
        (if status = 201 then Except.ok ()
         else Except.error (Err.fabricHTTP status)) ∧
      (create_connection_on_prem a b c d e f g h i j status).2 =
        (if status = 201 then Except.ok ()
         else Except.error (Err.fabricHTTP status)) ∧
      (create_connection_vnet a b c d e f g h i j w status).2 =
        (if status = 201 then Except.ok ()
         else Except.error (Err.fabricHTTP status)) ∧
      (add_connection_role_assignemnt nm em pt ro rid status).2 =
        (if pt ∉ principal_types then
           Except.error (Err.valueError pt principal_types)
         else if ro ∉ connection_roles then
           Except.error (Err.valueError ro connection_roles)
         else if status = 201 then Except.ok ()
         else Except.error (Err.fabricHTTP status)) ∧
      (delete_connection nm rid status).2 =
        (if status = 200 then Except.ok ()
         else Except.error (Err.fabricHTTP status)) ∧
      (create_dataflow dfn mdoc descr ws wsid status).2 =
        (if status = 200 then Except.ok ()
         else Except.error (Err.fabricHTTP status)) ∧
      (shortcutLoopGo env w l [⟨tnm, true, false, true, k + 1⟩]).2 =
        (if env.shortcutStatus tnm = 201 then Except.ok ()
         else Except.error (Err.fabricHTTP (env.shortcutStatus tnm))) ∧
      (create_connection_cloud a b c d e f g h i j status).1 =
        [Event.httpPost "/v1/connections"
          (create_connection_cloud_body a b c d e f g h i j)] ∧
      (delete_connection nm rid status).1.filter
          (fun ev => match ev with
            | Event.httpDelete _ => true
            | _ => false) =
        [Event.httpDelete ("/v1/connections/" ++ rid)] := by
  intro a b c d e f g h i j nm em pt ro rid wsid dfn mdoc tnm w l descr ws
    status k env
  refine ⟨?_, ?_, ?_, ?_, ?_, ?_, ?_, ?_, ?_⟩
  · by_cases hs : status = 201 <;> simp [create_connection_cloud, hs]
  · by_cases hs : status = 201 <;> simp [create_connection_on_prem, hs]
  · by_cases hs : status = 201 <;> simp [create_connection_vnet, hs]
  · by_cases h1 : pt ∈ principal_types <;>
      by_cases h2 : ro ∈ connection_roles <;>
      by_cases hs : status = 201 <;>
      simp [add_connection_role_assignemnt, h1, h2, hs]
  · by_cases hs : status = 200 <;> simp [delete_connection, hs]
  · by_cases hs : status = 200 <;> simp [create_dataflow, hs]
  · by_cases hs : env.shortcutStatus tnm = 201 <;>
      simp [shortcutLoopGo, TomTable.eligible, hs]
  · by_cases hs : status = 201 <;> simp [create_connection_cloud, hs]
  · by_cases hs : status = 200 <;> simp [delete_connection, hs, List.filter]

/-- C7: the submitted create-connection payloads match the documented
field map per connectivity type.  The cloud body has no top-level
`gatewayId` and carries username/password credentials; the vnet body also
carries username/password credentials; the on-prem body carries a
top-level `gatewayId` and a `values` array under its credentials (each
entry pairing the gateway id with the opaque credentials string); and all
three carry the structural defaults `skipTestConnection: false`
(hard-wired) and `singleSignOnType` equal to the caller's optional
parameter, whose Python default is `'None'` (overridden only when the
caller supplies a different value). -/
theorem create_connection_payload_field_map :
    ∀ (cn sn dn ct un pw pl cvt sso enc gid creds : String),
      (create_connection_cloud_body cn sn dn ct un pw pl cvt sso enc).get
          "gatewayId" = none ∧
      ((create_connection_cloud_body cn sn dn ct un pw pl cvt sso enc).get
          "credentialDetails").bind (fun cd => cd.get "credentials") =
        some (Json.obj [("credentialType", Json.str ct),
                        ("username", Json.str un),
                        ("password", Json.str pw)]) ∧
      ((create_connection_vnet_body cn gid sn dn un pw ct pl cvt sso enc).get
          "credentialDetails").bind (fun cd => cd.get "credentials") =
        some (Json.obj [("credentialType", Json.str ct),
                        ("username", Json.str un),
                        ("password", Json.str pw)]) ∧
      (create_connection_vnet_body cn gid sn dn un pw ct pl cvt sso enc).get
          "gatewayId" = some (Json.str gid) ∧
      (create_connection_on_prem_body cn gid sn dn ct creds pl cvt sso enc).get
          "gatewayId" = some (Json.str gid) ∧
      ((create_connection_on_prem_body cn gid sn dn ct creds pl cvt sso
          enc).get "credentialDetails").bind (fun cd => cd.get "credentials") =
        some (Json.obj [("credentialType", Json.str ct),
                        ("values", Json.arr
                          [Json.obj [("gatewayId", Json.str gid),
                                     ("credentials", Json.str creds)]])]) ∧
      ((create_connection_cloud_body cn sn dn ct un pw pl cvt sso enc).get
          "credentialDetails").bind (fun cd => cd.get "skipTestConnection") =
        some (Json.bool false) ∧
      ((create_connection_on_prem_body cn gid sn dn ct creds pl cvt sso
          enc).get "credentialDetails").bind
          (fun cd => cd.get "skipTestConnection") =
        some (Json.bool false) ∧
      ((create_connection_vnet_body cn gid sn dn un pw ct pl cvt sso enc).get
          "credentialDetails").bind (fun cd => cd.get "skipTestConnection") =
        some (Json.bool false) ∧
      ((create_connection_cloud_body cn sn dn ct un pw pl cvt sso enc).get
          "credentialDetails").bind (fun cd => cd.get "singleSignOnType") =
        some (Json.str sso) ∧
      ((create_connection_on_prem_body cn gid sn dn ct creds pl cvt sso
          enc).get "credentialDetails").bind
          (fun cd => cd.get "singleSignOnType") =
        some (Json.str sso) ∧
      ((create_connection_vnet_body cn gid sn dn un pw ct pl cvt sso enc).get
          "credentialDetails").bind (fun cd => cd.get "singleSignOnType") =
        some (Json.str sso) := by
  intro cn sn dn ct un pw pl cvt sso enc gid creds
  exact ⟨rfl, rfl, rfl, rfl, rfl, rfl, rfl, rfl, rfl, rfl, rfl, rfl⟩

/-- C5: a dataset is excluded from bulk analysis exactly when the items of
its workspace sharing its display name include both a storage item type
(Warehouse or Lakehouse) and the SemanticModel type, or it is the fixed
housekeeping model; a dataset whose display name appears only with the
SemanticModel type (and is not the housekeeping model) is included. -/
theorem default_model_exclusion :
    ∀ (items : List VItem) (n : String),
      (isSkippedDataset items n = true ↔
        ((∃ it ∈ items, it.displayName = n ∧
            (it.itemType = "Warehouse" ∨ it.itemType = "Lakehouse")) ∧
         (∃ it ∈ items, it.displayName = n ∧
            it.itemType = "SemanticModel")) ∨
        n = model_bpa_name) ∧
      ((∀ it ∈ items, it.displayName = n → it.itemType = "SemanticModel") →
        n ≠ model_bpa_name → isSkippedDataset items n = false) := by
  intro items n
  have hcont : ∀ (ty : String),
      (((items.filter (fun it => it.displayName == n)).map
          VItem.itemType).contains ty = true) ↔
        ∃ it ∈ items, it.displayName = n ∧ it.itemType = ty := by
    intro ty
    simp only [List.contains, List.elem_iff, List.mem_map, List.mem_filter,
      beq_iff_eq]
    constructor
    · rintro ⟨it, ⟨hm, hd⟩, ht⟩; exact ⟨it, hm, hd, ht⟩
    · rintro ⟨it, hm, hd, ht⟩; exact ⟨it, ⟨hm, hd⟩, ht⟩
  have hgroup : groupPasses items n = true ↔
      ((∃ it ∈ items, it.displayName = n ∧ it.itemType = "Warehouse") ∧
       (∃ it ∈ items, it.displayName = n ∧
          it.itemType = "SemanticModel")) ∨
      ((∃ it ∈ items, it.displayName = n ∧ it.itemType = "Lakehouse") ∧
       (∃ it ∈ items, it.displayName = n ∧
          it.itemType = "SemanticModel")) := by
    simp only [groupPasses, Bool.or_eq_true, Bool.and_eq_true]
    rw [hcont "Warehouse", hcont "SemanticModel", hcont "Lakehouse"]
  have hdm : ((default_semantic_models items).contains n = true) ↔
      ∃ it ∈ items, it.displayName = n ∧ groupPasses items n = true := by
    simp only [default_semantic_models, List.contains, List.elem_iff, List.mem_map,
      List.mem_filter]
    constructor
    · rintro ⟨it, ⟨hm, hp⟩, hd⟩
      exact ⟨it, hm, hd, hd ▸ hp⟩
    · rintro ⟨it, hm, hd, hp⟩
      refine ⟨it, ⟨hm, ?_⟩, hd⟩
      rw [hd]; exact hp
  have hmain : isSkippedDataset items n = true ↔
      ((∃ it ∈ items, it.displayName = n ∧
          (it.itemType = "Warehouse" ∨ it.itemType = "Lakehouse")) ∧
       (∃ it ∈ items, it.displayName = n ∧
          it.itemType = "SemanticModel")) ∨
      n = model_bpa_name := by
    simp only [isSkippedDataset, Bool.or_eq_true, beq_iff_eq]
    rw [hdm]
    constructor
    · rintro (⟨it, hm, hd, hg⟩ | hbpa)
      · rcases hgroup.mp hg with ⟨⟨iw, hmw, hdw, htw⟩, hS⟩ |
          ⟨⟨il, hml, hdl, htl⟩, hS⟩
        · exact Or.inl ⟨⟨iw, hmw, hdw, Or.inl htw⟩, hS⟩
        · exact Or.inl ⟨⟨il, hml, hdl, Or.inr htl⟩, hS⟩
      · exact Or.inr hbpa
    · rintro (⟨⟨ix, hmx, hdx, htx⟩, ⟨is, hms, hds, hts⟩⟩ | hbpa)
      · refine Or.inl ⟨is, hms, hds, hgroup.mpr ?_⟩
        rcases htx with h1 | h1
        · exact Or.inl ⟨⟨ix, hmx, hdx, h1⟩, ⟨is, hms, hds, hts⟩⟩
        · exact Or.inr ⟨⟨ix, hmx, hdx, h1⟩, ⟨is, hms, hds, hts⟩⟩
      · exact Or.inr hbpa
  refine ⟨hmain, ?_⟩
  intro hall hne
  cases h : isSkippedDataset items n with
  | false => rfl
  | true =>
    rcases hmain.mp h with ⟨⟨it, hm, hd, ht⟩, _⟩ | hbpa
    · have hsem := hall it hm hd
      rcases ht with h1 | h1 <;> rw [hsem] at h1 <;> exact absurd h1 (by decide)
    · exact absurd hbpa hne

/-- C5 witness: concrete instances of the exclusion rule — "X" present as
both Lakehouse and SemanticModel is excluded, "Y" present only as
SemanticModel is included. -/
theorem default_model_exclusion_witness :
    isSkippedDataset [⟨"X", "Lakehouse"⟩, ⟨"X", "SemanticModel"⟩,
      ⟨"Y", "SemanticModel"⟩] "X" = true ∧
    isSkippedDataset [⟨"X", "Lakehouse"⟩, ⟨"X", "SemanticModel"⟩,
      ⟨"Y", "SemanticModel"⟩] "Y" = false := by
  constructor
  · exact (default_model_exclusion [⟨"X", "Lakehouse"⟩, ⟨"X", "SemanticModel"⟩,
      ⟨"Y", "SemanticModel"⟩] "X").1.mpr
      (Or.inl ⟨⟨⟨"X", "Lakehouse"⟩, by simp, rfl, Or.inr rfl⟩,
        ⟨⟨"X", "SemanticModel"⟩, by simp, rfl, rfl⟩⟩)
  · exact (default_model_exclusion [⟨"X", "Lakehouse"⟩, ⟨"X", "SemanticModel"⟩,
      ⟨"Y", "SemanticModel"⟩] "Y").2
      (by intro it hm hd; fin_cases hm <;> simp_all)
      (by decide)

theorem processDataset_runId (runId : Nat) (now : String) (w : VWorkspace)
    (d : VDataset) (res : Except String VResult) :
    ∀ frame ∈ (processDataset runId now w d res).1, ∀ row ∈ frame,
      row.lookup "RunId" = some (Json.num runId) := by
  intro frame hf row hr
  match res with
  | Except.error e => simp [processDataset] at hf
  | Except.ok (m, t, c, h, p, rel) =>
    simp only [processDataset, List.mem_singleton] at hf
    subst hf
    rcases List.mem_map.mp hr with ⟨r0, _, hrow⟩
    rw [← hrow]
    exact setField_lookup_self _ _ _

theorem processWorkspace_runId (env : VEnv) (runId : Nat) (w : VWorkspace) :
    ∀ frame ∈ (processWorkspace env runId w).1, ∀ row ∈ frame,
      row.lookup "RunId" = some (Json.num runId) := by
  intro frame hf row hr
  simp only [processWorkspace] at hf
  split at hf
  · simp at hf
  · split at hf
    · simp at hf
    · rcases List.mem_flatten.mp hf with ⟨l, hl, hfl⟩
      rcases List.mem_map.mp hl with ⟨res, hres, hleq⟩
      rcases List.mem_map.mp hres with ⟨d, hd, hdeq⟩
      subst hdeq
      rw [← hleq] at hfl
      exact processDataset_runId runId env.now w d _ frame hfl row hr

theorem bulkGo_runId (env : VEnv) (runId : Nat) :
    ∀ (wss : List VWorkspace), ∀ frame ∈ (bulkGo env runId wss).1,
      ∀ row ∈ frame, row.lookup "RunId" = some (Json.num runId) := by
  intro wss
  induction wss with
  | nil => intro frame hf; simp [bulkGo] at hf
  | cons w rest ih =>
    intro frame hf row hr
    simp only [bulkGo] at hf
    split at hf
    · exact processWorkspace_runId env runId w frame hf row hr
    · rcases List.mem_append.mp hf with h | h
      · exact processWorkspace_runId env runId w frame h row hr
      · exact ih frame h row hr

/-- C4: the run id is 1 when no `vertipaq_analyzer_model` table exists and
the persisted maximum plus one otherwise; it is computed once, before the
workspace loop (the single `computeRunId env` value threads through the
whole invocation), and every row tagged during the invocation carries this
same run id, whatever workspace or dataset it came from. -/
theorem run_id_once_and_uniform :
    ∀ (env : VEnv) (wf : Option (List String)),
      ((env.lakehouseTableNames.filter
          (fun nm => nm == vertipaq_table_name)).isEmpty = true →
        computeRunId env = 1) ∧
      ((env.lakehouseTableNames.filter
          (fun nm => nm == vertipaq_table_name)).isEmpty = false →
        computeRunId env = env.maxRunId + 1) ∧
      (∀ frame ∈ (vertipaq_analyzer_bulk env wf).1, ∀ row ∈ frame,
        row.lookup "RunId" = some (Json.num (computeRunId env))) := by
  intro env wf
  refine ⟨?_, ?_, ?_⟩
  · intro h; simp [computeRunId, h]
  · intro h; simp [computeRunId, h]
  · intro frame hf row hr
    simp only [vertipaq_analyzer_bulk] at hf
    split at hf
    · simp at hf
    · exact bulkGo_runId env (computeRunId env) _ frame hf row hr

/-- A concrete environment for the C4 witness: the results table exists
with maximum run id 7, one workspace, one ordinary dataset, an analyzer
returning a single-row first frame. -/
def c4Env : VEnv :=
  { lakehouseAttached := true,
    lakehouseTableNames := ["vertipaq_analyzer_model"],
    maxRunId := 7,
    now := "t",
    workspaces := [⟨"W", "wid", "cap", "CapName", [⟨"DS", "did", "u"⟩], []⟩],
    analyzer := fun _ _ => Except.ok ([[("Name", Json.str "tbl")]],
      [], [], [], [], []) }

/-- The row the C4 witness run produces, tagged with run id 8. -/
def c4TaggedRow : VRow :=
  [("Name", Json.str "tbl"), ("Capacity Id", Json.str "cap"),
   ("Capacity Name", Json.str "CapName"), ("Workspace Name", Json.str "W"),
   ("Workspace Id", Json.str "wid"), ("Dataset Name", Json.str "DS"),
   ("Dataset Id", Json.str "did"), ("Configured By", Json.str "u"),
   ("Timestamp", Json.str "t"), ("RunId", Json.num 8)]

/-- C4 witness: with a prior table of maximum run id 7, the new run id is
8 and the produced row carries it. -/
theorem run_id_once_and_uniform_witness :
    computeRunId c4Env = 8 ∧
    c4TaggedRow.lookup "RunId" = some (Json.num (computeRunId c4Env)) := by
  constructor
  · exact (run_id_once_and_uniform c4Env none).2.1 rfl
  · exact (run_id_once_and_uniform c4Env none).2.2 [c4TaggedRow]
      (List.mem_singleton.mpr rfl) c4TaggedRow (List.mem_singleton.mpr rfl)

/-- A concrete environment exercising the C6 failing input: a fresh
results table, one workspace with two ordinary datasets, an analyzer that
succeeds with a one-row first frame. -/
def c6Env : VEnv :=
  { lakehouseAttached := true,
    lakehouseTableNames := [],
    maxRunId := 0,
    now := "t",
    workspaces := [⟨"W", "wid", "cap", "CapName",
      [⟨"DS1", "d1", "u"⟩, ⟨"DS2", "d2", "u"⟩], []⟩],
    analyzer := fun _ _ => Except.ok ([[("Name", Json.str "tbl")]],
      [], [], [], [], []) }

/-- C6, evaluated at the failing input: each dataset's failure is caught
and logged with the dataset and workspace names and the loop does proceed
to the next dataset — but the trace contains no `save` event at all; the
invocation aborts with the uncaught `KeyError` on `Severity` (line 136)
before `save_as_delta_table` (itself referencing the undefined
`output_table`) is ever reached, so the workspace's rows are never
appended to durable storage. -/
theorem workspace_commit_never_happens :
    (vertipaq_analyzer_bulk c6Env none).2.1 =
      [VEvent.collectStart "DS1" "W", VEvent.logFailure "DS1" "W",
       VEvent.collectStart "DS2" "W", VEvent.logFailure "DS2" "W"] ∧
    (vertipaq_analyzer_bulk c6Env none).2.2 =
      Except.error "KeyError: Severity" := ⟨rfl, rfl⟩

/-- C9, evaluated at the failing input: projecting an item with every
field missing yields a row of explicit absent values (no crash), but the
returned column list depends on the response contents — an empty response
keeps the declared columns (with their misspellings), while a single item
adds the correctly-spelled `new_data` keys "Single Sign On Type" and
"Connection Encryption" as two extra columns; likewise the
role-assignment table gains an extra "Princiapl Type" column. -/
theorem projection_total_but_columns_vary :
    connectionNewData [] =
      [("Connection Id", none), ("Connection Name", none),
       ("Gateway Id", none), ("Connectivity Type", none),
       ("Connection Path", none), ("Connection Type", none),
       ("Privacy Level", none), ("Credential Type", none),
       ("Single Sign On Type", none), ("Connection Encryption", none),
       ("Skip Test Connection", none)] ∧
    ((list_connections 200 [[]]).toOption.map DataFrame.columns) =
      some connectionColumns ∧
    ((list_connections 200 [[[]]]).toOption.map DataFrame.columns) =
      some (connectionColumns ++
        ["Single Sign On Type", "Connection Encryption"]) ∧
    ((list_connection_role_assignments "c" "cid" 200
        [[[]]]).2.toOption.map DataFrame.columns) =
      some (roleAssignmentColumns ++ ["Princiapl Type"]) :=
  ⟨rfl, rfl, rfl, rfl⟩

/-- C1, counterexample: `list_connections` never follows continuation
links.  On a server with two pages of one item each, it returns one row,
while the sum of the `value` array lengths across all pages is two. -/
theorem list_connections_first_page_only :
    ((list_connections 200 [[[("id", Json.str "a")]],
        [[("id", Json.str "b")]]]).toOption.map
      (fun df => df.rows.length)) = some 1 ∧
    (([[[("id", Json.str "a")]], [[("id", Json.str "b")]]] : Pages).map
      List.length).sum = 2 := ⟨rfl, rfl⟩

/-- C1 (amended): `list_connection_role_assignments`, which does call the
`pagination` helper, returns exactly one row per item of every page, in
server page order (its rows are the flattened pages mapped through the
projection); its row count equals the sum of the `value` array lengths
across all pages; and two servers with the same flattened items — e.g. a
single-page and a multi-page split — yield identical results.
`list_connections` issues one GET and returns only the first page's items:
its row count is the first page's `value` length. -/
theorem pagination_flattening :
    ∀ (cname cid : String) (pages altPages : Pages),
      ((list_connection_role_assignments cname cid 200 pages).2.toOption.map
        DataFrame.rows) = some (pages.flatten.map roleAssignmentNewData) ∧
      (∀ df, (list_connection_role_assignments cname cid 200 pages).2 =
        Except.ok df → df.rows.length = (pages.map List.length).sum) ∧
      (pages.flatten = altPages.flatten →
        (list_connection_role_assignments cname cid 200 pages).2 =
          (list_connection_role_assignments cname cid 200 altPages).2) ∧
      ((list_connections 200 pages).toOption.map
        (fun df => df.rows.length)) = some (pages.headD []).length := by
  intro cname cid pages altPages
  have hrole : ∀ (pgs : Pages),
      (list_connection_role_assignments cname cid 200 pgs).2 =
        Except.ok ⟨if pgs.flatten.isEmpty then roleAssignmentColumns
          else roleAssignmentColumns ++ ["Princiapl Type"],
          pgs.flatten.map roleAssignmentNewData⟩ := by
    intro pgs
    simp only [list_connection_role_assignments, pagination, ne_eq,
      not_true_eq_false, if_false, reduceIte]
    rw [← List.foldl_flatten, role_fold_eq]
  refine ⟨?_, ?_, ?_, ?_⟩
  · rw [hrole pages]; rfl
  · intro df hdf
    rw [hrole pages] at hdf
    cases hdf
    simp only [DataFrame.rows, List.length_flatten]
    simp [Function.comp_def]
  · intro h
    rw [hrole pages, hrole altPages, h]
  · simp only [list_connections, ne_eq, not_true_eq_false, if_false,
      reduceIte]
    rw [conn_fold_eq]
    simp [DataFrame.astypeBoolCol]
    exact ⟨_, rfl, by simp⟩

/-- C1 witness: a one-page and a two-page server with the same flattened
items yield identical role-assignment results, and the two-page result
has two rows, the sum of the page lengths. -/
theorem pagination_flattening_witness :
    (list_connection_role_assignments "c" "i" 200
        [[[("id", Json.str "a")], [("id", Json.str "b")]]]).2 =
      (list_connection_role_assignments "c" "i" 200
        [[[("id", Json.str "a")]], [[("id", Json.str "b")]]]).2 ∧
    (DataFrame.mk (roleAssignmentColumns ++ ["Princiapl Type"])
        [roleAssignmentNewData [("id", Json.str "a")],
         roleAssignmentNewData [("id", Json.str "b")]]).rows.length =
      (([[[("id", Json.str "a")]], [[("id", Json.str "b")]]] : Pages).map
        List.length).sum := by
  constructor
  · exact (pagination_flattening "c" "i"
      [[[("id", Json.str "a")], [("id", Json.str "b")]]]
      [[[("id", Json.str "a")]], [[("id", Json.str "b")]]]).2.2.1 rfl
  · exact (pagination_flattening "c" "i"
      [[[("id", Json.str "a")]], [[("id", Json.str "b")]]]
      [[[("id", Json.str "a")]], [[("id", Json.str "b")]]]).2.1
      (DataFrame.mk (roleAssignmentColumns ++ ["Princiapl Type"])
        [roleAssignmentNewData [("id", Json.str "a")],
         roleAssignmentNewData [("id", Json.str "b")]]) rfl

/-- C2, counterexample: an invalid enum value does not always cause a
local `ValueError` before any network activity.  `create_connection_cloud`
performs no validation at all — with an arbitrary invalid credential type
it issues the POST and succeeds; and `add_connection_role_assignemnt`
with an invalid principal type does raise a `ValueError`, but only after
the name-to-id resolution call has already been issued. -/
theorem enum_validation_counterexample :
    (create_connection_cloud "cn" "s" "d" "NotACredentialType" "u" "p"
      "Organizational" "ShareableCloud" "None" "Encyrpted" 201).2 =
      Except.ok () ∧
    (create_connection_cloud "cn" "s" "d" "NotACredentialType" "u" "p"
      "Organizational" "ShareableCloud" "None" "Encyrpted" 201).1 =
      [Event.httpPost "/v1/connections"
        (create_connection_cloud_body "cn" "s" "d" "NotACredentialType" "u"
          "p" "Organizational" "ShareableCloud" "None" "Encyrpted")] ∧
    (create_connection_on_prem "cn" "gw" "s" "d" "NotACredentialType" "cr"
      "Organizational" "NotAConnectivityType" "None" "Encyrpted" 201).2 =
      Except.ok () ∧
    (create_connection_on_prem "cn" "gw" "s" "d" "NotACredentialType" "cr"
      "Organizational" "NotAConnectivityType" "None" "Encyrpted" 201).1 =
      [Event.httpPost "/v1/connections"
        (create_connection_on_prem_body "cn" "gw" "s" "d"
          "NotACredentialType" "cr" "Organizational" "NotAConnectivityType"
          "None" "Encyrpted")] ∧
    (create_connection_vnet "cn" "gw" "s" "d" "u" "p" "NotACredentialType"
      "Organizational" "NotAConnectivityType" "None" "Encyrpted" 201).2 =
      Except.ok () ∧
    (create_connection_vnet "cn" "gw" "s" "d" "u" "p" "NotACredentialType"
      "Organizational" "NotAConnectivityType" "None" "Encyrpted" 201).1 =
      [Event.httpPost "/v1/connections"
        (create_connection_vnet_body "cn" "gw" "s" "d" "u" "p"
          "NotACredentialType" "Organizational" "NotAConnectivityType"
          "None" "Encyrpted")] ∧
    (add_connection_role_assignemnt "c" "e" "Foo" "Owner" "cid" 201).1 =
      [Event.resolveConnectionId "c"] ∧
    (add_connection_role_assignemnt "c" "e" "Foo" "Owner" "cid" 201).2 =
      Except.error (Err.valueError "Foo" principal_types) :=
  ⟨rfl, rfl, rfl, rfl, rfl, rfl, rfl, rfl⟩

/-- C2 (amended): `add_connection_role_assignemnt` does validate
`principal_type` and `role` against the fixed allowed sets and raises a
local `ValueError` naming the offending value and the allowed set, before
its roleAssignments POST — but after the name-to-id resolution call; on
an invalid value the trace is exactly the resolution, no POST.  The
create-connection functions — `create_connection_cloud`,
`create_connection_on_prem` and `create_connection_vnet` — perform no
local enum validation: each always issues exactly the POST with its body
and never raises a `ValueError`. -/
theorem enum_validation_amended :
    ∀ (cn em pt ro rid a b c d e f g h i j k : String) (st : Nat),
      (pt ∉ principal_types →
        add_connection_role_assignemnt cn em pt ro rid st =
          ([Event.resolveConnectionId cn],
           Except.error (Err.valueError pt principal_types))) ∧
      (pt ∈ principal_types → ro ∉ connection_roles →
        add_connection_role_assignemnt cn em pt ro rid st =
          ([Event.resolveConnectionId cn],
           Except.error (Err.valueError ro connection_roles))) ∧
      (create_connection_cloud a b c d e f g h i j st).1 =
        [Event.httpPost "/v1/connections"
          (create_connection_cloud_body a b c d e f g h i j)] ∧
      (∀ off al, (create_connection_cloud a b c d e f g h i j st).2 ≠
        Except.error (Err.valueError off al)) ∧
      (create_connection_on_prem a b c d e f g h i j st).1 =
        [Event.httpPost "/v1/connections"
          (create_connection_on_prem_body a b c d e f g h i j)] ∧
      (∀ off al, (create_connection_on_prem a b c d e f g h i j st).2 ≠
        Except.error (Err.valueError off al)) ∧
      (create_connection_vnet a b c d e f g h i j k st).1 =
        [Event.httpPost "/v1/connections"
          (create_connection_vnet_body a b c d e f g h i j k)] ∧
      (∀ off al, (create_connection_vnet a b c d e f g h i j k st).2 ≠
        Except.error (Err.valueError off al)) := by
  intro cn em pt ro rid a b c d e f g h i j k st
  refine ⟨?_, ?_, ?_, ?_, ?_, ?_, ?_, ?_⟩
  · intro hpt
    simp [add_connection_role_assignemnt, hpt]
  · intro hpt hro
    simp [add_connection_role_assignemnt, hpt, hro]
  · by_cases hs : st = 201 <;> simp [create_connection_cloud, hs]
  · intro off al
    by_cases hs : st = 201 <;> simp [create_connection_cloud, hs]
  · by_cases hs : st = 201 <;> simp [create_connection_on_prem, hs]
  · intro off al
    by_cases hs : st = 201 <;> simp [create_connection_on_prem, hs]
  · by_cases hs : st = 201 <;> simp [create_connection_vnet, hs]
  · intro off al
    by_cases hs : st = 201 <;> simp [create_connection_vnet, hs]

/-- C2 witness: concrete invalid principal type and role. -/
theorem enum_validation_amended_witness :
    add_connection_role_assignemnt "c" "e" "Foo" "Owner" "cid" 201 =
      ([Event.resolveConnectionId "c"],
       Except.error (Err.valueError "Foo" principal_types)) ∧
    add_connection_role_assignemnt "c" "e" "User" "Boss" "cid" 201 =
      ([Event.resolveConnectionId "c"],
       Except.error (Err.valueError "Boss" connection_roles)) := by
  constructor
  · exact (enum_validation_amended "c" "e" "Foo" "Owner" "cid"
      "x" "x" "x" "x" "x" "x" "x" "x" "x" "x" "x" 201).1 (by decide)
  · exact (enum_validation_amended "c" "e" "User" "Boss" "cid"
      "x" "x" "x" "x" "x" "x" "x" "x" "x" "x" "x" 201).2.1 (by decide)
      (by decide)

/-- C10: `export_model_to_onelake` is not atomic.  With shortcuts
requested, no destination lakehouse, and no lakehouse attached, it raises
`ValueError` only after the TMSL delta export — present in the trace —
has executed; and when a later shortcut POST fails, the call raises
`FabricHTTPException` while the export and the shortcuts already created
remain in the trace. -/
theorem export_not_atomic :
    ∀ (dataset : String) (ws dws : Option String) (env : OneLakeEnv)
      (t1 t2 : TomTable),
      (env.lakehouseAttached = false →
        (export_model_to_onelake dataset ws none dws true env).2 =
          Except.error (Err.valueErrorMsg
            ("In order to create shortcuts, a lakehouse must be attached " ++
             "to the notebook or a lakehouse must be specified in the " ++
             "parameters of this function.")) ∧
        Event.tmslExport dataset env.workspaceName ∈
          (export_model_to_onelake dataset ws none dws true env).1) ∧
      (env.lakehouseAttached = true → env.tables = [t1, t2] →
        t1.eligible = true → t2.eligible = true →
        env.shortcutStatus t1.name = 201 →
        env.shortcutStatus t2.name = 500 →
        (export_model_to_onelake dataset ws none dws true env).2 =
          Except.error (Err.fabricHTTP 500) ∧
        Event.tmslExport dataset env.workspaceName ∈
          (export_model_to_onelake dataset ws none dws true env).1 ∧
        Event.httpPost
          ("/v1/workspaces/" ++ env.attachedWorkspaceId ++ "/items/" ++
            env.attachedLakehouseId ++ "/shortcuts")
          (shortcut_request_body env.workspaceId env.sourceLakehouseId
            t1.name (t1.name.replace " " "")) ∈
          (export_model_to_onelake dataset ws none dws true env).1) := by
  intro dataset ws dws env t1 t2
  constructor
  · intro hatt
    constructor
    · simp [export_model_to_onelake, hatt]
    · simp [export_model_to_onelake, hatt]
  · intro hatt htabs he1 he2 hs1 hs2
    refine ⟨?_, ?_, ?_⟩
    · simp [export_model_to_onelake, hatt, htabs, shortcutLoopGo, he1, he2,
        hs1, hs2]
    · simp [export_model_to_onelake, hatt]
    · simp [export_model_to_onelake, hatt, htabs, shortcutLoopGo, he1, he2,
        hs1, hs2]

/-- C10 witness: a concrete unattached environment, and a concrete
attached environment whose second shortcut POST fails. -/
theorem export_not_atomic_witness :
    ((export_model_to_onelake "M" none none none true
        ⟨"W", "wid", "dwid", false, "alk", "awk", "rlk", "src", [], fun _ => 201⟩).2 =
      Except.error (Err.valueErrorMsg
        ("In order to create shortcuts, a lakehouse must be attached " ++
         "to the notebook or a lakehouse must be specified in the " ++
         "parameters of this function.")) ∧
     Event.tmslExport "M" "W" ∈
      (export_model_to_onelake "M" none none none true
        ⟨"W", "wid", "dwid", false, "alk", "awk", "rlk", "src", [],
          fun _ => 201⟩).1) ∧
    ((export_model_to_onelake "M" none none none true
        ⟨"W", "wid", "dwid", true, "alk", "awk", "rlk", "src",
          [⟨"T One", true, false, true, 1⟩, ⟨"T Two", true, false, true, 1⟩],
          fun nm => if nm = "T One" then 201 else 500⟩).2 =
      Except.error (Err.fabricHTTP 500) ∧
     Event.tmslExport "M" "W" ∈
      (export_model_to_onelake "M" none none none true
        ⟨"W", "wid", "dwid", true, "alk", "awk", "rlk", "src",
          [⟨"T One", true, false, true, 1⟩, ⟨"T Two", true, false, true, 1⟩],
          fun nm => if nm = "T One" then 201 else 500⟩).1 ∧
     Event.httpPost ("/v1/workspaces/" ++ "awk" ++ "/items/" ++ "alk" ++
        "/shortcuts")
        (shortcut_request_body "wid" "src" "T One"
          ("T One".replace " " "")) ∈
      (export_model_to_onelake "M" none none none true
        ⟨"W", "wid", "dwid", true, "alk", "awk", "rlk", "src",
          [⟨"T One", true, false, true, 1⟩, ⟨"T Two", true, false, true, 1⟩],
          fun nm => if nm = "T One" then 201 else 500⟩).1) := by
  constructor
  · exact (export_not_atomic "M" none none
      ⟨"W", "wid", "dwid", false, "alk", "awk", "rlk", "src", [], fun _ => 201⟩
      ⟨"t", true, false, true, 1⟩ ⟨"t", true, false, true, 1⟩).1 rfl
  · exact (export_not_atomic "M" none none
      ⟨"W", "wid", "dwid", true, "alk", "awk", "rlk", "src",
        [⟨"T One", true, false, true, 1⟩, ⟨"T Two", true, false, true, 1⟩],
        fun nm => if nm = "T One" then 201 else 500⟩
      ⟨"T One", true, false, true, 1⟩ ⟨"T Two", true, false, true, 1⟩).2
      rfl rfl rfl rfl rfl rfl

theorem charSextet_sextetChar : ∀ s < 64, charSextet (sextetChar s) = some s := by
  decide

theorem sextetChar_ne_61 : ∀ s < 64, sextetChar s ≠ 61 := by decide

theorem base64_decode_encode_aux : ∀ (n : Nat) (bs : List Nat),
    bs.length ≤ n → (∀ b ∈ bs, b < 256) →
    base64Decode (base64Encode bs) = some bs := by
  intro n
  induction n with
  | zero =>
    intro bs hlen _
    have hnil : bs = [] := List.eq_nil_of_length_eq_zero (Nat.le_zero.mp hlen)
    subst hnil
    rfl
  | succ n ih =>
    intro bs hlen hb
    match bs with
    | [] => rfl
    | [b0] =>
      have h0 : b0 < 256 := hb b0 (by simp)
      have e0 := charSextet_sextetChar (b0 / 4) (by omega)
      have e1 := charSextet_sextetChar (b0 % 4 * 16) (by omega)
      simp only [base64Encode, base64Decode, e0, e1]
      simp
      omega
    | [b0, b1] =>
      have h0 : b0 < 256 := hb b0 (by simp)
      have h1 : b1 < 256 := hb b1 (by simp)
      have e0 := charSextet_sextetChar (b0 / 4) (by omega)
      have e1 := charSextet_sextetChar (b0 % 4 * 16 + b1 / 16) (by omega)
      have e2 := charSextet_sextetChar (b1 % 16 * 4) (by omega)
      have ne2 := sextetChar_ne_61 (b1 % 16 * 4) (by omega)
      simp only [base64Encode, base64Decode, e0, e1, e2, if_neg ne2]
      simp
      omega
    | b0 :: b1 :: b2 :: b3 :: rest2 =>
      have h0 : b0 < 256 := hb b0 (by simp)
      have h1 : b1 < 256 := hb b1 (by simp)
      have h2 : b2 < 256 := hb b2 (by simp)
      have e0 := charSextet_sextetChar (b0 / 4) (by omega)
      have e1 := charSextet_sextetChar (b0 % 4 * 16 + b1 / 16) (by omega)
      have e2 := charSextet_sextetChar (b1 % 16 * 4 + b2 / 64) (by omega)
      have e3 := charSextet_sextetChar (b2 % 64) (by omega)
      have ne2 := sextetChar_ne_61 (b1 % 16 * 4 + b2 / 64) (by omega)
      have ne3 := sextetChar_ne_61 (b2 % 64) (by omega)
      have ihrest : base64Decode (base64Encode (b3 :: rest2)) =
          some (b3 :: rest2) := by
        refine ih (b3 :: rest2) ?_ ?_
        · simp only [List.length_cons] at hlen ⊢; omega
        · intro b hbm; exact hb b (by simp [hbm])
      simp only [base64Encode, base64Decode, e0, e1, e2, e3, if_neg ne2,
        if_neg ne3, ihrest]
      simp
      omega
    | [b0, b1, b2] =>
      have h0 : b0 < 256 := hb b0 (by simp)
      have h1 : b1 < 256 := hb b1 (by simp)
      have h2 : b2 < 256 := hb b2 (by simp)
      have e0 := charSextet_sextetChar (b0 / 4) (by omega)
      have e1 := charSextet_sextetChar (b0 % 4 * 16 + b1 / 16) (by omega)
      have e2 := charSextet_sextetChar (b1 % 16 * 4 + b2 / 64) (by omega)
      have e3 := charSextet_sextetChar (b2 % 64) (by omega)
      have ne2 := sextetChar_ne_61 (b1 % 16 * 4 + b2 / 64) (by omega)
      have ne3 := sextetChar_ne_61 (b2 % 64) (by omega)
      simp only [base64Encode, base64Decode, e0, e1, e2, e3, if_neg ne2,
        if_neg ne3]
      simp
      omega

theorem base64_decode_encode (bs : List Nat) (hb : ∀ b ∈ bs, b < 256) :
    base64Decode (base64Encode bs) = some bs :=
  base64_decode_encode_aux bs.length bs (Nat.le_refl _) hb

theorem utf8EncodeChar_bytes_lt (c : Nat) (h : c < 1114112) :
    ∀ b ∈ utf8EncodeChar c, b < 256 := by
  intro b hb
  simp only [utf8EncodeChar] at hb
  split_ifs at hb with h1 h2 h3 <;> simp only [List.mem_cons,
    List.mem_singleton, List.not_mem_nil, or_false] at hb
  · omega
  · rcases hb with rfl | rfl <;> omega
  · rcases hb with rfl | rfl | rfl <;> omega
  · rcases hb with rfl | rfl | rfl | rfl <;> omega

theorem utf8_step (c : Nat) (h : c < 1114112) (rest : List Nat) :
    utf8DecodeAux 0 0 (utf8EncodeChar c ++ rest) =
      (utf8DecodeAux 0 0 rest).map (c :: ·) := by
  by_cases h1 : c < 128
  · simp only [utf8EncodeChar, if_pos h1, List.cons_append, List.nil_append,
      utf8DecodeAux, if_pos h1]
  · by_cases h2 : c < 2048
    · have hA : ¬ (192 + c / 64 < 128) := by omega
      have hB : ¬ (192 + c / 64 < 192) := by omega
      have hC : 192 + c / 64 < 224 := by omega
      have hD : 128 ≤ 128 + c % 64 ∧ 128 + c % 64 < 192 := by omega
      simp only [utf8EncodeChar, if_neg h1, if_pos h2, List.cons_append,
        List.nil_append, utf8DecodeAux, if_neg hA, if_neg hB, if_pos hC]
      rw [if_pos hD, if_pos trivial]
      have hval : (192 + c / 64 - 192) * 64 + (128 + c % 64 - 128) = c := by
        omega
      rw [hval]
    · by_cases h3 : c < 65536
      · have hA : ¬ (224 + c / 4096 < 128) := by omega
        have hB : ¬ (224 + c / 4096 < 192) := by omega
        have hC : ¬ (224 + c / 4096 < 224) := by omega
        have hD : 224 + c / 4096 < 240 := by omega
        have hE : 128 ≤ 128 + c / 64 % 64 ∧ 128 + c / 64 % 64 < 192 := by
          omega
        have hF : 128 ≤ 128 + c % 64 ∧ 128 + c % 64 < 192 := by omega
        simp only [utf8EncodeChar, if_neg h1, if_neg h2, if_pos h3,
          List.cons_append, List.nil_append, utf8DecodeAux, if_neg hA,
          if_neg hB, if_neg hC, if_pos hD]
        rw [if_pos hE, if_neg (show ¬ (1 : Nat) = 0 by omega), if_pos hF,
          if_pos trivial]
        have hval : ((224 + c / 4096 - 224) * 64 + (128 + c / 64 % 64 - 128)) *
            64 + (128 + c % 64 - 128) = c := by omega
        rw [hval]
      · have hA : ¬ (240 + c / 262144 < 128) := by omega
        have hB : ¬ (240 + c / 262144 < 192) := by omega
        have hC : ¬ (240 + c / 262144 < 224) := by omega
        have hD : ¬ (240 + c / 262144 < 240) := by omega
        have hE : 240 + c / 262144 < 248 := by omega
        have hF1 : 128 ≤ 128 + c / 4096 % 64 ∧ 128 + c / 4096 % 64 < 192 := by
          omega
        have hF2 : 128 ≤ 128 + c / 64 % 64 ∧ 128 + c / 64 % 64 < 192 := by
          omega
        have hF3 : 128 ≤ 128 + c % 64 ∧ 128 + c % 64 < 192 := by omega
        simp only [utf8EncodeChar, if_neg h1, if_neg h2, if_neg h3,
          List.cons_append, List.nil_append, utf8DecodeAux, if_neg hA,
          if_neg hB, if_neg hC, if_neg hD, if_pos hE]
        rw [if_pos hF1, if_neg (show ¬ (2 : Nat) = 0 by omega), if_pos hF2,
          if_neg (show ¬ (1 : Nat) = 0 by omega), if_pos hF3, if_pos trivial]
        have hval : (((240 + c / 262144 - 240) * 64 +
            (128 + c / 4096 % 64 - 128)) * 64 + (128 + c / 64 % 64 - 128)) *
            64 + (128 + c % 64 - 128) = c := by omega
        rw [hval]

theorem utf8_decode_encode : ∀ (cs : List Nat),
    (∀ c ∈ cs, c < 1114112) → utf8Decode (utf8Encode cs) = some cs := by
  intro cs
  induction cs with
  | nil => intro _; rfl
  | cons c rest ih =>
    intro h
    have hc : c < 1114112 := h c (by simp)
    have hr : ∀ x ∈ rest, x < 1114112 := fun x hx => h x (by simp [hx])
    have ih' := ih hr
    simp only [utf8Decode, utf8Encode, List.map_cons, List.flatten_cons]
    rw [utf8_step c hc]
    simp only [utf8Decode, utf8Encode] at ih'
    rw [ih']
    rfl

theorem unescape_escape : ∀ (cs : List Nat),
    unescapeCodes (escapeCodes cs) = some cs := by
  intro cs
  induction cs with
  | nil => rfl
  | cons c rest ih =>
    by_cases h : c = 34 ∨ c = 92
    · simp only [escapeCodes, if_pos h, unescapeCodes, if_pos rfl, if_pos h,
        ih]
      rfl
    · have h34 : ¬ c = 34 := fun e => h (Or.inl e)
      have h92 : ¬ c = 92 := fun e => h (Or.inr e)
      simp only [escapeCodes, if_neg h]
      rw [unescapeCodes.eq_def]
      simp only [if_neg h92, if_neg h34, ih]
      rfl

theorem escape_valid : ∀ (cs : List Nat), (∀ c ∈ cs, c < 1114112) →
    ∀ c ∈ escapeCodes cs, c < 1114112 := by
  intro cs
  induction cs with
  | nil => intro _ c hc; simp [escapeCodes] at hc
  | cons a rest ih =>
    intro h c hc
    have ha : a < 1114112 := h a (by simp)
    have hr : ∀ x ∈ rest, x < 1114112 := fun x hx => h x (by simp [hx])
    by_cases hcase : a = 34 ∨ a = 92
    · simp only [escapeCodes, if_pos hcase, List.mem_cons] at hc
      rcases hc with rfl | rfl | hc
      · omega
      · exact ha
      · exact ih hr c hc
    · simp only [escapeCodes, if_neg hcase, List.mem_cons] at hc
      rcases hc with rfl | hc
      · exact ha
      · exact ih hr c hc

theorem strCodes_valid (s : String) : ∀ c ∈ strCodes s, c < 1114112 := by
  intro c hc
  simp only [strCodes, List.mem_map] at hc
  rcases hc with ⟨ch, _, rfl⟩
  have hv := ch.valid
  simp only [UInt32.isValidChar, Nat.isValidChar] at hv
  rcases hv with hlt | ⟨_, hlt⟩
  · exact Nat.lt_trans hlt (by norm_num)
  · exact hlt

theorem utf8Encode_bytes_lt : ∀ (cs : List Nat), (∀ c ∈ cs, c < 1114112) →
    ∀ b ∈ utf8Encode cs, b < 256 := by
  intro cs h b hb
  simp only [utf8Encode, List.mem_flatten] at hb
  rcases hb with ⟨l, hl, hbl⟩
  rcases List.mem_map.mp hl with ⟨c, hc, rfl⟩
  exact utf8EncodeChar_bytes_lt c (h c hc) b hbl

theorem strip_parts (hd e tl : List Nat) :
    ((hd ++ e ++ tl).take hd.length = hd) ∧
    ((hd ++ e ++ tl).drop ((hd ++ e ++ tl).length - tl.length) = tl) ∧
    (hd.length + tl.length ≤ (hd ++ e ++ tl).length) ∧
    (((hd ++ e ++ tl).drop hd.length).take
      ((hd ++ e ++ tl).length - hd.length - tl.length) = e) := by
  have hlen : (hd ++ e ++ tl).length = hd.length + e.length + tl.length := by
    simp only [List.length_append]
  have h2 : (hd ++ e ++ tl).length - tl.length = (hd ++ e).length := by
    simp only [List.length_append]
    omega
  have h3 : (hd ++ e ++ tl).length - hd.length - tl.length = e.length := by
    simp only [List.length_append]
    omega
  have h4 : (hd ++ e ++ tl).drop hd.length = e ++ tl := by
    rw [List.append_assoc]
    simp
  refine ⟨?_, ?_, ?_, ?_⟩
  · rw [List.append_assoc]; simp
  · rw [h2]; simp
  · rw [hlen]; omega
  · rw [h4, h3]; simp

/-- C8: the dataflow envelope builder is a pure deterministic transform
(a function of its inputs by construction in this embedding), and decoding
the base64-encoded envelope — base64 decode, UTF-8 decode, verification
of the constant envelope fields, unescaping of the document — yields the
original mashup document unchanged, for an arbitrary document string
including special characters (quotes, backslashes) and non-ASCII text. -/
theorem dataflow_envelope_roundtrip :
    ∀ (mashup_document : String),
      decodeEnvelope (conv_b64 mashup_document) =
        some (strCodes mashup_document) := by
  intro doc
  have hvalid : ∀ c ∈ serializeEnvelope doc, c < 1114112 := by
    intro c hc
    simp only [serializeEnvelope, List.mem_append] at hc
    rcases hc with (hc | hc) | hc
    · exact strCodes_valid envelopeHead c hc
    · exact escape_valid (strCodes doc) (strCodes_valid doc) c hc
    · exact strCodes_valid envelopeTail c hc
  have hbytes := utf8Encode_bytes_lt (serializeEnvelope doc) hvalid
  have hb64 := base64_decode_encode (utf8Encode (serializeEnvelope doc)) hbytes
  have hutf := utf8_decode_encode (serializeEnvelope doc) hvalid
  have hstrip := strip_parts (strCodes envelopeHead)
    (escapeCodes (strCodes doc)) (strCodes envelopeTail)
  simp only [serializeEnvelope] at hb64 hutf
  simp only [conv_b64, decodeEnvelope, serializeEnvelope, hb64, hutf]
  rw [if_pos ⟨hstrip.1, hstrip.2.1, hstrip.2.2.1⟩]
  rw [hstrip.2.2.2]
  exact unescape_escape (strCodes doc)
